import Mathlib

/-!
Verification of the cpu_tracker member script (src/main.py).

The script samples CPU utilization 50 times at 0.1 s intervals, computes the
exact arithmetic mean (statistics.mean) and a differentially-private mean
(diffprivlib.tools.mean with epsilon = 0.5, bounds = (0, 100), rounded to two
decimal places), and writes two JSON records: the noised one to
`<root>/app_pipelines/cpu_tracker/cpu_tracker.json` and the exact one to
`<root>/private/cpu_tracker/cpu_tracker.json`.

Embedding conventions:
* Python floats are modelled as rationals (ℚ).
* The external sampler (psutil.cpu_percent), the Laplace noise draw of the DP
  library, the clock (datetime.now) and the filesystem are oracles packaged in
  a `World`; the run is a deterministic function of the world.
* Filesystem paths are lists of components; file contents are structured
  `Record` values plus an explicit textual rendering mirroring json.dump.
* Exceptions are modelled with `Except RunError` / an error field; the run
  short-circuits at the first error exactly as uncaught Python exceptions do.
-/

/-- Errors of the spec's taxonomy (section 7): invalid DP/mean parameters
(StatisticsError / diffprivlib ValueError), file-write failure (OSError), and
sampler failure. -/
inductive RunError where
  | invalidParameter
  | ioFailure
  | samplingFailure
deriving DecidableEq, Repr

deriving instance DecidableEq for Except

/-- A UTC wall-clock instant as produced by datetime.now(UTC), with the fields
strftime reads. -/
structure DateTime where
  year : ℕ
  month : ℕ
  day : ℕ
  hour : ℕ
  minute : ℕ
  second : ℕ
deriving DecidableEq, Repr

/-- The decimal digit character for n < 10 (strftime zero-padded fields). -/
def digitChar (n : ℕ) : Char := Char.ofNat (48 + n)

/-- Two-digit zero-padded decimal rendering, as strftime %m %d %H %M %S. -/
def pad2 (n : ℕ) : List Char := [digitChar (n / 10), digitChar (n % 10)]

/-- Four-digit zero-padded decimal rendering, as strftime %Y for years < 10000. -/
def pad4 (n : ℕ) : List Char :=
  [digitChar (n / 1000), digitChar (n / 100 % 10), digitChar (n / 10 % 10), digitChar (n % 10)]

/-- Characters of current_time.strftime("%Y-%m-%d %H:%M:%S") (main.py line 101). -/
def timestampChars (t : DateTime) : List Char :=
  pad4 t.year ++ ['-'] ++ pad2 t.month ++ ['-'] ++ pad2 t.day ++ [' '] ++
    pad2 t.hour ++ [':'] ++ pad2 t.minute ++ [':'] ++ pad2 t.second

/-- The timestamp string written into the JSON record. -/
def timestampStr (t : DateTime) : String := String.mk (timestampChars t)

/-- Field ranges under which datetime.now(UTC) operates (strftime then renders
%Y on four digits and the rest on two). -/
def validDT (t : DateTime) : Bool :=
  decide (1 ≤ t.year) && decide (t.year ≤ 9999) &&
  decide (1 ≤ t.month) && decide (t.month ≤ 12) &&
  decide (1 ≤ t.day) && decide (t.day ≤ 31) &&
  decide (t.hour ≤ 23) && decide (t.minute ≤ 59) && decide (t.second ≤ 59)

/-- Recognizer for the spec's timestamp format "YYYY-MM-DD HH:MM:SS". -/
def tsFormatOk (l : List Char) : Bool :=
  match l with
  | [y1, y2, y3, y4, s1, m1, m2, s2, d1, d2, s3, h1, h2, s4, n1, n2, s5, c1, c2] =>
      y1.isDigit && y2.isDigit && y3.isDigit && y4.isDigit && (s1 == '-') &&
      m1.isDigit && m2.isDigit && (s2 == '-') && d1.isDigit && d2.isDigit &&
      (s3 == ' ') && h1.isDigit && h2.isDigit && (s4 == ':') &&
      n1.isDigit && n2.isDigit && (s5 == ':') && c1.isDigit && c2.isDigit
  | _ => false

/-- The record save() serializes: a numeric "cpu" field and a "timestamp"
string (main.py lines 104–108). -/
structure Record where
  cpu : ℚ
  timestamp : String
deriving DecidableEq, Repr

/-- A JSON scalar, enough for the two fields the script writes. -/
inductive JsonVal where
  | num (q : ℚ)
  | str (s : String)
deriving DecidableEq, Repr

/-- The dict literal passed to json.dump on lines 104–108, in insertion order. -/
def jsonFields (r : Record) : List (String × JsonVal) :=
  [("cpu", JsonVal.num r.cpu), ("timestamp", JsonVal.str r.timestamp)]

/-- Rendering of a JSON scalar; numeric rendering (Python repr of a float) is
abstracted as a parameter. -/
def renderVal (numRepr : ℚ → String) : JsonVal → String
  | JsonVal.num q => numRepr q
  | JsonVal.str s => "\"" ++ s ++ "\""

/-- Rendering of the members of a flat JSON object as json.dump(obj, indent=4)
lays them out: each on its own line behind four spaces, separated by commas. -/
def renderFields (numRepr : ℚ → String) : List (String × JsonVal) → String
  | [] => ""
  | [(k, v)] => "    \"" ++ k ++ "\": " ++ renderVal numRepr v
  | (k, v) :: rest =>
      "    \"" ++ k ++ "\": " ++ renderVal numRepr v ++ ",\n" ++
        renderFields numRepr rest

/-- Rendering of a flat JSON object as json.dump(obj, indent=4) prints it. -/
def renderJson (numRepr : ℚ → String) (fields : List (String × JsonVal)) : String :=
  "\x7b\n" ++ renderFields numRepr fields ++ "\n\x7d"

/-- Events of the sampling loop: one sampler call per reading, one
time.sleep(0.1) after each (main.py lines 24–27). -/
inductive Ev where
  | sample (v : ℚ)
  | sleep (d : ℚ)
deriving DecidableEq, Repr

/-- Body of the `while len(cpu_usage_values) < 50` loop of
get_cpu_usage_samples (main.py lines 24–27).  Each iteration appends exactly
one reading, so the remaining iteration count `n` (initially 50) is the loop
counter `50 - len(acc)`; the sampler is indexed by the call number
`acc.length`.  A sampler exception propagates out of the loop. -/
def sampleLoop (sampler : ℕ → Except RunError ℚ) :
    ℕ → List ℚ → List Ev → List Ev × Except RunError (List ℚ)
  | 0, acc, evs => (evs, Except.ok acc)
  | n + 1, acc, evs =>
      match sampler acc.length with
      | Except.error e => (evs, Except.error e)
      | Except.ok v => sampleLoop sampler n (acc ++ [v]) (evs ++ [Ev.sample v, Ev.sleep (1/10)])

/-- get_cpu_usage_samples (main.py lines 12–29): collect 50 CPU usage samples
with a 0.1-second interval between each sample. -/
def get_cpu_usage_samples (sampler : ℕ → Except RunError ℚ) :
    List Ev × Except RunError (List ℚ) :=
  sampleLoop sampler 50 [] []

/-- statistics.mean as called on line 123: raises StatisticsError (the spec's
InvalidParameterError) on an empty series, else returns sum / count. -/
def statistics_mean (xs : List ℚ) : Except RunError ℚ :=
  if xs = [] then Except.error RunError.invalidParameter
  else Except.ok (xs.sum / (xs.length : ℚ))

/-- Clipping of a sample into the declared bounds, the standard step of a
bounded-mean DP mechanism. -/
def clip (bounds : ℚ × ℚ) (x : ℚ) : ℚ := max bounds.1 (min bounds.2 x)

/-- Modelled from the spec: diffprivlib.tools.mean (the external DP library
called on lines 126–130 is not part of this repository).  Per the spec's
PrivacyAggregator contract it fails with InvalidParameterError when
epsilon ≤ 0 or the series is empty, and otherwise returns the mean of the
bounds-clipped samples plus calibrated noise; the Laplace draw is abstracted
as the oracle `noise`. -/
def dp_mean (xs : List ℚ) (epsilon : ℚ) (bounds : ℚ × ℚ) (noise : ℚ) :
    Except RunError ℚ :=
  if epsilon ≤ 0 then Except.error RunError.invalidParameter
  else if xs = [] then Except.error RunError.invalidParameter
  else Except.ok ((xs.map (clip bounds)).sum / (xs.length : ℚ) + noise)

/-- Python round() at two decimals: round-half-to-even on q * 100. -/
def rndHalfEven (q : ℚ) : ℤ :=
  if q - ⌊q⌋ < 1/2 then ⌊q⌋
  else if 1/2 < q - ⌊q⌋ then ⌊q⌋ + 1
  else if ⌊q⌋ % 2 = 0 then ⌊q⌋ else ⌊q⌋ + 1

/-- round(x, 2) of lines 125–132. -/
def round2 (q : ℚ) : ℚ := (rndHalfEven (q * 100) : ℚ) / 100

/-- The aggregation step of lines 121–132, parameterized as the spec's
PrivacyAggregator.compute contract: exact mean through statistics.mean, noised
mean through dp.mean rounded to two decimals. -/
def compute (xs : List ℚ) (epsilon : ℚ) (bounds : ℚ × ℚ) (noise : ℚ) :
    Except RunError (ℚ × ℚ) :=
  match statistics_mean xs with
  | Except.error e => Except.error e
  | Except.ok exact =>
      match dp_mean xs epsilon bounds noise with
      | Except.error e => Except.error e
      | Except.ok noised => Except.ok (exact, round2 noised)

/-- A rational is representable with at most two decimal places exactly when
one hundred times it is an integer. -/
def twoDecimalRepresentable (q : ℚ) : Prop := ∃ k : ℤ, q * 100 = (k : ℚ)

/-- The filesystem's record files: full path ↦ content. -/
def Fs : Type := List String → Option Record

/-- The external oracles of one invocation: os.makedirs and
SyftPermission.save outcomes per directory, writability of a directory for
open(path, "w"), the psutil sampler, the DP library's noise draw, and the
clock read by each save() call. -/
structure World where
  mkdirOk : List String → Bool
  permOk : List String → Bool
  writable : List String → Bool
  sampler : ℕ → Except RunError ℚ
  noise : ℚ
  clock : ℕ → DateTime

/-- create_restricted_public_folder (main.py lines 32–52): makedirs
`path/app_pipelines/cpu_tracker`, then build the datasite-default permission,
append the aggregator as reader and save it; either effect may raise.  The ACL
content itself is external (SyftPermission). -/
def create_restricted_public_folder (w : World) (path : List String) :
    Except RunError (List String) :=
  if w.mkdirOk (path ++ ["app_pipelines", "cpu_tracker"]) then
    if w.permOk (path ++ ["app_pipelines", "cpu_tracker"]) then
      Except.ok (path ++ ["app_pipelines", "cpu_tracker"])
    else Except.error RunError.ioFailure
  else Except.error RunError.ioFailure

/-- create_private_folder (main.py lines 55–77): makedirs
`path/private/cpu_tracker`, then save the owner-only default permission. -/
def create_private_folder (w : World) (path : List String) :
    Except RunError (List String) :=
  if w.mkdirOk (path ++ ["private", "cpu_tracker"]) then
    if w.permOk (path ++ ["private", "cpu_tracker"]) then
      Except.ok (path ++ ["private", "cpu_tracker"])
    else Except.error RunError.ioFailure
  else Except.error RunError.ioFailure

/-- save (main.py lines 80–108): read the clock, open(path, "w") — which
fails with OSError when the parent directory is missing or unwritable, and
otherwise truncates/creates the file — and json.dump the record.  Returns the
updated filesystem, or the unchanged one together with the error. -/
def save (writable : List String → Bool) (fs : Fs) (path : List String)
    (cpu_usage : ℚ) (now : DateTime) : Fs × Option RunError :=
  if writable path.dropLast then
    (fun p => if p = path then some ⟨cpu_usage, timestampStr now⟩ else fs p, none)
  else (fs, some RunError.ioFailure)

/-- Outcome of one run: the record writes that succeeded, in order; the final
filesystem; the uncaught exception, if any. -/
structure RunResult where
  trace : List (List String × Record)
  fs : Fs
  err : Option RunError

/-- The public record file `restricted_public_folder / "cpu_tracker.json"`
(main.py line 135). -/
def publicFile (root : List String) : List String :=
  root ++ ["app_pipelines", "cpu_tracker", "cpu_tracker.json"]

/-- The private record file `private_folder / "cpu_tracker.json"` (main.py
line 139). -/
def privateFile (root : List String) : List String :=
  root ++ ["private", "cpu_tracker", "cpu_tracker.json"]

/-- The __main__ block (main.py lines 111–140), generalized over the function
computing the exact mean on line 123 (`runGenExact statistics_mean` is the
script itself): create the two permissioned folders, collect the samples,
compute the exact mean and the noised mean (dp.mean with epsilon = 0.5 and
bounds (0, 100), rounded to 2 decimals), save the noised mean to the public
file, then save the exact mean to the private file.  Any exception aborts the
remainder of the run. -/
def runGenExact (exactFn : List ℚ → Except RunError ℚ) (w : World) (fs0 : Fs)
    (root : List String) : RunResult :=
  match create_restricted_public_folder w root with
  | Except.error e => ⟨[], fs0, some e⟩
  | Except.ok restricted_public_folder =>
    match create_private_folder w root with
    | Except.error e => ⟨[], fs0, some e⟩
    | Except.ok private_folder =>
      match (get_cpu_usage_samples w.sampler).2 with
      | Except.error e => ⟨[], fs0, some e⟩
      | Except.ok cpu_usage_samples =>
        match exactFn cpu_usage_samples with
        | Except.error e => ⟨[], fs0, some e⟩
        | Except.ok m =>
          match dp_mean cpu_usage_samples (1/2) (0, 100) w.noise with
          | Except.error e => ⟨[], fs0, some e⟩
          | Except.ok dpm =>
            match save w.writable fs0 (restricted_public_folder ++ ["cpu_tracker.json"])
                (round2 dpm) (w.clock 0) with
            | (_, some e) => ⟨[], fs0, some e⟩
            | (fs1, none) =>
              match save w.writable fs1 (private_folder ++ ["cpu_tracker.json"])
                  m (w.clock 1) with
              | (_, some e) =>
                  ⟨[(restricted_public_folder ++ ["cpu_tracker.json"],
                     ⟨round2 dpm, timestampStr (w.clock 0)⟩)], fs1, some e⟩
              | (fs2, none) =>
                  ⟨[(restricted_public_folder ++ ["cpu_tracker.json"],
                     ⟨round2 dpm, timestampStr (w.clock 0)⟩),
                    (private_folder ++ ["cpu_tracker.json"],
                     ⟨m, timestampStr (w.clock 1)⟩)], fs2, none⟩

/-- The __main__ block itself: the exact mean is statistics.mean (line 123). -/
def run (w : World) (fs0 : Fs) (root : List String) : RunResult :=
  runGenExact statistics_mean w fs0 root

/-- The series a run collects when every sampler call succeeds, the i-th call
returning f i. -/
def seriesOf (f : ℕ → ℚ) : List ℚ := (List.range 50).map f

/-- The noised value the run publishes, as a function of the collected series
and the noise draw only: round(dp.mean(samples, epsilon=0.5, bounds=(0,100)), 2). -/
def noisedValue (xs : List ℚ) (noise : ℚ) : ℚ :=
  round2 ((xs.map (clip (0, 100))).sum / (xs.length : ℚ) + noise)

/-- An initially empty filesystem, used to instantiate the theorems on
concrete inputs. -/
def fsNone : Fs := fun _ => none

/-- A concrete clock instant for instantiating the theorems. -/
def dt0 : DateTime := ⟨2026, 10, 12, 3, 4, 5⟩

/-- A world where every effect succeeds and each sampler call returns 25%. -/
def wAllOk : World :=
  ⟨fun _ => true, fun _ => true, fun _ => true, fun _ => Except.ok 25, 1/4, fun _ => dt0⟩

/-- A world where every effect succeeds and each sampler call returns 1/3, a
reading whose mean needs more than two decimal places. -/
def wThird : World :=
  ⟨fun _ => true, fun _ => true, fun _ => true, fun _ => Except.ok (1/3), 1/4, fun _ => dt0⟩

/-- A world whose sampler raises on its first call. -/
def wSampFail : World :=
  ⟨fun _ => true, fun _ => true, fun _ => true,
   fun _ => Except.error RunError.samplingFailure, 1/4, fun _ => dt0⟩

/-- A world where no directory is writable, so the first (public) save fails. -/
def wPubFail : World :=
  ⟨fun _ => true, fun _ => true, fun _ => false, fun _ => Except.ok 25, 1/4, fun _ => dt0⟩

/-- A world where only the public folder is writable, so the public save
succeeds and the private save fails. -/
def wPrivFail : World :=
  ⟨fun _ => true, fun _ => true, fun d => d == ["ds", "app_pipelines", "cpu_tracker"],
   fun _ => Except.ok 25, 1/4, fun _ => dt0⟩

section Sampling

/-- Closed form of the sampling loop when every sampler call succeeds. -/
theorem sampleLoop_total (sampler : ℕ → Except RunError ℚ) (f : ℕ → ℚ)
    (hs : ∀ i, sampler i = Except.ok (f i)) :
    ∀ (n : ℕ) (acc : List ℚ) (evs : List Ev),
      sampleLoop sampler n acc evs =
        (evs ++ (List.range' acc.length n).flatMap (fun i => [Ev.sample (f i), Ev.sleep (1/10)]),
         Except.ok (acc ++ (List.range' acc.length n).map f)) := by
  intro n
  induction n with
  | zero => intro acc evs; simp [sampleLoop]
  | succ n ih =>
      intro acc evs
      rw [List.range'_succ]
      simp only [sampleLoop, hs acc.length, List.flatMap_cons, List.map_cons]
      rw [ih (acc ++ [f acc.length]) (evs ++ [Ev.sample (f acc.length), Ev.sleep (1/10)])]
      simp

theorem get_cpu_usage_samples_total (sampler : ℕ → Except RunError ℚ) (f : ℕ → ℚ)
    (hs : ∀ i, sampler i = Except.ok (f i)) :
    get_cpu_usage_samples sampler =
      ((List.range 50).flatMap (fun i => [Ev.sample (f i), Ev.sleep (1/10)]),
       Except.ok (seriesOf f)) := by
  rw [get_cpu_usage_samples, sampleLoop_total sampler f hs 50 [] []]
  simp [seriesOf, List.range_eq_range']

theorem seriesOf_length (f : ℕ → ℚ) : (seriesOf f).length = 50 := by
  simp [seriesOf]

theorem seriesOf_ne_nil (f : ℕ → ℚ) : seriesOf f ≠ [] := by
  simp [seriesOf]

theorem publicFile_ne_privateFile (root : List String) :
    publicFile root ≠ privateFile root := by
  simp [publicFile, privateFile]

end Sampling

section RunClosedForm

theorem dp_mean_ok (xs : List ℚ) (noise : ℚ) (h : xs ≠ []) :
    dp_mean xs (1/2) (0, 100) noise =
      Except.ok ((xs.map (clip (0, 100))).sum / (xs.length : ℚ) + noise) := by
  rw [dp_mean, if_neg (by norm_num), if_neg h]

theorem statistics_mean_ok (xs : List ℚ) (h : xs ≠ []) :
    statistics_mean xs = Except.ok (xs.sum / (xs.length : ℚ)) := by
  rw [statistics_mean, if_neg h]

theorem dropLast_append_three (root : List String) (a b c : String) :
    (root ++ [a, b, c]).dropLast = root ++ [a, b] := by
  rw [show [a, b, c] = [a, b] ++ [c] from rfl, ← List.append_assoc, List.dropLast_concat]

theorem run_ok (w : World) (fs0 : Fs) (root : List String) (f : ℕ → ℚ)
    (hs : ∀ i, w.sampler i = Except.ok (f i))
    (hm1 : w.mkdirOk (root ++ ["app_pipelines", "cpu_tracker"]) = true)
    (hp1 : w.permOk (root ++ ["app_pipelines", "cpu_tracker"]) = true)
    (hm2 : w.mkdirOk (root ++ ["private", "cpu_tracker"]) = true)
    (hp2 : w.permOk (root ++ ["private", "cpu_tracker"]) = true)
    (hw1 : w.writable (root ++ ["app_pipelines", "cpu_tracker"]) = true)
    (hw2 : w.writable (root ++ ["private", "cpu_tracker"]) = true) :
    (run w fs0 root).err = none ∧
    (run w fs0 root).trace =
      [(publicFile root, ⟨noisedValue (seriesOf f) w.noise, timestampStr (w.clock 0)⟩),
       (privateFile root, ⟨(seriesOf f).sum / ((seriesOf f).length : ℚ),
          timestampStr (w.clock 1)⟩)] ∧
    (run w fs0 root).fs (publicFile root) =
      some ⟨noisedValue (seriesOf f) w.noise, timestampStr (w.clock 0)⟩ ∧
    (run w fs0 root).fs (privateFile root) =
      some ⟨(seriesOf f).sum / ((seriesOf f).length : ℚ), timestampStr (w.clock 1)⟩ ∧
    ∀ p, p ≠ publicFile root → p ≠ privateFile root → (run w fs0 root).fs p = fs0 p := by
  have hsamp := get_cpu_usage_samples_total w.sampler f hs
  have hne := seriesOf_ne_nil f
  have hrun : run w fs0 root =
      ⟨[(publicFile root, ⟨noisedValue (seriesOf f) w.noise, timestampStr (w.clock 0)⟩),
        (privateFile root, ⟨(seriesOf f).sum / ((seriesOf f).length : ℚ),
           timestampStr (w.clock 1)⟩)],
       fun p =>
         if p = privateFile root then
           some ⟨(seriesOf f).sum / ((seriesOf f).length : ℚ), timestampStr (w.clock 1)⟩
         else if p = publicFile root then
           some ⟨noisedValue (seriesOf f) w.noise, timestampStr (w.clock 0)⟩
         else fs0 p,
       none⟩ := by
    simp only [run, runGenExact, create_restricted_public_folder,
      create_private_folder, hm1, hp1, hm2, hp2, if_true, hsamp,
      statistics_mean_ok (seriesOf f) hne, dp_mean_ok (seriesOf f) w.noise hne,
      save, dropLast_append_three, hw1, hw2, noisedValue, publicFile, privateFile,
      List.append_assoc, List.cons_append, List.nil_append]
  refine ⟨by rw [hrun], by rw [hrun], ?_, ?_, ?_⟩
  · rw [hrun]
    simp [publicFile_ne_privateFile root]
  · rw [hrun]
    simp
  · intro p hp1' hp2'
    rw [hrun]
    simp [hp1', hp2']

end RunClosedForm

section Timestamp

theorem digitChar_isDigit (n : ℕ) (h : n < 10) : (digitChar n).isDigit = true := by
  interval_cases n <;> decide

theorem tsFormatOk_timestampChars (t : DateTime) (h : validDT t = true) :
    tsFormatOk (timestampChars t) = true := by
  simp only [validDT, Bool.and_eq_true, decide_eq_true_eq] at h
  obtain ⟨⟨⟨⟨⟨⟨⟨⟨h1, h2⟩, h3⟩, h4⟩, h5⟩, h6⟩, h7⟩, h8⟩, h9⟩ := h
  simp only [timestampChars, pad4, pad2, List.cons_append, List.nil_append, tsFormatOk,
    Bool.and_eq_true, beq_self_eq_true, and_true, true_and]
  repeat' apply And.intro
  all_goals apply digitChar_isDigit
  all_goals omega

end Timestamp

section SamplerFailure

theorem get_cpu_usage_samples_err (sampler : ℕ → Except RunError ℚ) (e : RunError)
    (h : sampler 0 = Except.error e) :
    get_cpu_usage_samples sampler = ([], Except.error e) := by
  rw [get_cpu_usage_samples, show (50 : ℕ) = 49 + 1 from rfl]
  simp [sampleLoop, h]

end SamplerFailure

/-- C6: the sample-collection operation always returns a series of exactly 50
readings, obtained by calling the external sampler once per reading (the i-th
call yielding the i-th reading) with a 0.1-second sleep after each call. -/
theorem claim_C6_fifty_samples (sampler : ℕ → Except RunError ℚ) (f : ℕ → ℚ)
    (hs : ∀ i, sampler i = Except.ok (f i)) :
    (get_cpu_usage_samples sampler).2 = Except.ok (seriesOf f) ∧
    (seriesOf f).length = 50 ∧
    seriesOf f = (List.range 50).map f ∧
    (get_cpu_usage_samples sampler).1 =
      (List.range 50).flatMap (fun i => [Ev.sample (f i), Ev.sleep (1/10)]) := by
  rw [get_cpu_usage_samples_total sampler f hs]
  exact ⟨rfl, seriesOf_length f, rfl, rfl⟩

theorem claim_C6_witness :
    (get_cpu_usage_samples wAllOk.sampler).2 = Except.ok (seriesOf (fun _ => 25)) ∧
    (seriesOf (fun _ => (25 : ℚ))).length = 50 ∧
    seriesOf (fun _ => (25 : ℚ)) = (List.range 50).map (fun _ => 25) ∧
    (get_cpu_usage_samples wAllOk.sampler).1 =
      (List.range 50).flatMap (fun _ => [Ev.sample 25, Ev.sleep (1/10)]) :=
  claim_C6_fifty_samples wAllOk.sampler (fun _ => 25) (fun _ => rfl)

/-- C4: the aggregation step fails with InvalidParameterError when epsilon ≤ 0
or when the sample series is empty, rather than returning a value. -/
theorem claim_C4_invalid_parameters (xs : List ℚ) (epsilon : ℚ) (bounds : ℚ × ℚ)
    (noise : ℚ) (h : epsilon ≤ 0 ∨ xs = []) :
    compute xs epsilon bounds noise = Except.error RunError.invalidParameter := by
  by_cases hxs : xs = []
  · subst hxs
    simp [compute, statistics_mean]
  · rcases h with h | h
    · rw [compute, statistics_mean_ok xs hxs, dp_mean, if_pos h]
    · exact absurd h hxs

theorem claim_C4_witness :
    compute [] 1 (0, 100) 0 = Except.error RunError.invalidParameter ∧
    compute [5] 0 (0, 100) 0 = Except.error RunError.invalidParameter :=
  ⟨claim_C4_invalid_parameters [] 1 (0, 100) 0 (Or.inr rfl),
   claim_C4_invalid_parameters [5] 0 (0, 100) 0 (Or.inl (by norm_num))⟩

/-- C5: for every record and destination, save serializes a record carrying
exactly the keys "cpu" (numeric) and "timestamp" (a string in the format
"YYYY-MM-DD HH:MM:SS" produced from the UTC clock), lays it out as JSON with
4-space indentation, and overwrites whatever the destination held before. -/
theorem claim_C5_save_serialization (writable : List String → Bool) (fs : Fs)
    (path : List String) (cpu : ℚ) (now : DateTime) (numRepr : ℚ → String)
    (hvalid : validDT now = true) (hw : writable path.dropLast = true) :
    (save writable fs path cpu now).1 path = some ⟨cpu, timestampStr now⟩ ∧
    (save writable fs path cpu now).2 = none ∧
    (jsonFields ⟨cpu, timestampStr now⟩).map Prod.fst = ["cpu", "timestamp"] ∧
    tsFormatOk (timestampStr now).data = true ∧
    renderJson numRepr (jsonFields ⟨cpu, timestampStr now⟩) =
      "\x7b\n    \"cpu\": " ++ numRepr cpu ++ ",\n    \"timestamp\": \"" ++
        timestampStr now ++ "\"\n\x7d" := by
  refine ⟨?_, ?_, rfl, tsFormatOk_timestampChars now hvalid, ?_⟩
  · simp [save, hw]
  · simp [save, hw]
  · simp only [jsonFields, renderJson, renderFields, renderVal]
    rw [show ("\x7b\n    \"cpu\": " : String) = "\x7b\n" ++ "    \"" ++ "cpu" ++ "\": " from rfl,
      show (",\n    \"timestamp\": \"" : String) =
        ",\n" ++ "    \"" ++ "timestamp" ++ "\": " ++ "\"" from rfl,
      show ("\"\n\x7d" : String) = "\"" ++ "\n\x7d" from rfl]
    simp only [String.append_assoc]

theorem claim_C5_witness :
    (save (fun _ => true) fsNone ["ds", "private", "cpu_tracker", "cpu_tracker.json"]
        (1/2) dt0).1 ["ds", "private", "cpu_tracker", "cpu_tracker.json"] =
      some ⟨1/2, timestampStr dt0⟩ ∧
    (save (fun _ => true) fsNone ["ds", "private", "cpu_tracker", "cpu_tracker.json"]
        (1/2) dt0).2 = none ∧
    (jsonFields ⟨1/2, timestampStr dt0⟩).map Prod.fst = ["cpu", "timestamp"] ∧
    tsFormatOk (timestampStr dt0).data = true ∧
    renderJson (fun _ => "0.5") (jsonFields ⟨1/2, timestampStr dt0⟩) =
      "\x7b\n    \"cpu\": " ++ (fun _ => "0.5") (1/2 : ℚ) ++ ",\n    \"timestamp\": \"" ++
        timestampStr dt0 ++ "\"\n\x7d" :=
  claim_C5_save_serialization (fun _ => true) fsNone
    ["ds", "private", "cpu_tracker", "cpu_tracker.json"] (1/2) dt0 (fun _ => "0.5")
    (by decide) rfl

/-- C9: when the destination's parent directory is missing or not writable,
save fails with IOError, surfaced to the caller with no retry, and the
filesystem is unchanged: no file is created at the destination path. -/
theorem claim_C9_write_failure (writable : List String → Bool) (fs : Fs)
    (path : List String) (cpu : ℚ) (now : DateTime)
    (hw : writable path.dropLast = false) :
    save writable fs path cpu now = (fs, some RunError.ioFailure) := by
  simp [save, hw]

theorem claim_C9_witness :
    save (fun _ => false) fsNone ["ds", "x.json"] 1 dt0 =
      (fsNone, some RunError.ioFailure) :=
  claim_C9_write_failure (fun _ => false) fsNone ["ds", "x.json"] 1 dt0 rfl

/-- C1: for every non-empty collected series the exact value the run persists
to the private file is the arithmetic mean of all samples — their sum divided
by their count — and statistics.mean returns exactly that on any non-empty
series. -/
theorem claim_C1_exact_is_mean (w : World) (fs0 : Fs) (root : List String) (f : ℕ → ℚ)
    (hs : ∀ i, w.sampler i = Except.ok (f i))
    (hm1 : w.mkdirOk (root ++ ["app_pipelines", "cpu_tracker"]) = true)
    (hp1 : w.permOk (root ++ ["app_pipelines", "cpu_tracker"]) = true)
    (hm2 : w.mkdirOk (root ++ ["private", "cpu_tracker"]) = true)
    (hp2 : w.permOk (root ++ ["private", "cpu_tracker"]) = true)
    (hw1 : w.writable (root ++ ["app_pipelines", "cpu_tracker"]) = true)
    (hw2 : w.writable (root ++ ["private", "cpu_tracker"]) = true) :
    (∀ xs : List ℚ, xs ≠ [] → statistics_mean xs = Except.ok (xs.sum / (xs.length : ℚ))) ∧
    (run w fs0 root).fs (privateFile root) =
      some ⟨(seriesOf f).sum / ((seriesOf f).length : ℚ), timestampStr (w.clock 1)⟩ :=
  ⟨fun xs hxs => statistics_mean_ok xs hxs,
   (run_ok w fs0 root f hs hm1 hp1 hm2 hp2 hw1 hw2).2.2.2.1⟩

theorem claim_C1_witness :
    (∀ xs : List ℚ, xs ≠ [] → statistics_mean xs = Except.ok (xs.sum / (xs.length : ℚ))) ∧
    (run wAllOk fsNone ["ds"]).fs (privateFile ["ds"]) =
      some ⟨(seriesOf (fun _ => (25 : ℚ))).sum / ((seriesOf (fun _ => (25 : ℚ))).length : ℚ),
        timestampStr (wAllOk.clock 1)⟩ :=
  claim_C1_exact_is_mean wAllOk fsNone ["ds"] (fun _ => 25) (fun _ => rfl)
    rfl rfl rfl rfl rfl rfl

/-- C2: the value the run persists to the public file is the differentially
private mean of the same series — dp.mean called with the fixed parameters
epsilon = 0.5 and bounds (0, 100) — rounded to 2 decimal places. -/
theorem claim_C2_noised_dp_rounded (w : World) (fs0 : Fs) (root : List String)
    (f : ℕ → ℚ) (v : ℚ)
    (hs : ∀ i, w.sampler i = Except.ok (f i))
    (hm1 : w.mkdirOk (root ++ ["app_pipelines", "cpu_tracker"]) = true)
    (hp1 : w.permOk (root ++ ["app_pipelines", "cpu_tracker"]) = true)
    (hm2 : w.mkdirOk (root ++ ["private", "cpu_tracker"]) = true)
    (hp2 : w.permOk (root ++ ["private", "cpu_tracker"]) = true)
    (hw1 : w.writable (root ++ ["app_pipelines", "cpu_tracker"]) = true)
    (hw2 : w.writable (root ++ ["private", "cpu_tracker"]) = true)
    (hv : dp_mean (seriesOf f) (1/2) (0, 100) w.noise = Except.ok v) :
    (run w fs0 root).fs (publicFile root) =
      some ⟨round2 v, timestampStr (w.clock 0)⟩ := by
  rw [dp_mean_ok (seriesOf f) w.noise (seriesOf_ne_nil f)] at hv
  obtain rfl := Except.ok.inj hv
  simpa [noisedValue] using (run_ok w fs0 root f hs hm1 hp1 hm2 hp2 hw1 hw2).2.2.1

theorem claim_C2_witness :
    (run wAllOk fsNone ["ds"]).fs (publicFile ["ds"]) =
      some ⟨round2 (101/4), timestampStr (wAllOk.clock 0)⟩ :=
  claim_C2_noised_dp_rounded wAllOk fsNone ["ds"] (fun _ => 25) (101/4)
    (fun _ => rfl) rfl rfl rfl rfl rfl rfl (by
      have hmap : (seriesOf fun _ => (25 : ℚ)).map (clip (0, 100)) =
          List.replicate 50 25 := by
        rw [seriesOf, List.map_map]
        have hc : (clip (0, 100) ∘ fun _ => (25 : ℚ)) = fun _ : ℕ => (25 : ℚ) := by
          funext i
          norm_num [clip, Function.comp]
        rw [hc, List.map_const', List.length_range]
      rw [dp_mean_ok _ _ (seriesOf_ne_nil _), hmap, seriesOf_length]
      norm_num [List.sum_replicate, nsmul_eq_mul, wAllOk])

/-- C3: a fully successful run writes exactly two records, in order: the
noised record to <root>/app_pipelines/cpu_tracker/cpu_tracker.json and the
exact record to <root>/private/cpu_tracker/cpu_tracker.json, two distinct
destinations, with the noised and exact values never swapped between them. -/
theorem claim_C3_two_destinations (w : World) (fs0 : Fs) (root : List String)
    (f : ℕ → ℚ)
    (hs : ∀ i, w.sampler i = Except.ok (f i))
    (hm1 : w.mkdirOk (root ++ ["app_pipelines", "cpu_tracker"]) = true)
    (hp1 : w.permOk (root ++ ["app_pipelines", "cpu_tracker"]) = true)
    (hm2 : w.mkdirOk (root ++ ["private", "cpu_tracker"]) = true)
    (hp2 : w.permOk (root ++ ["private", "cpu_tracker"]) = true)
    (hw1 : w.writable (root ++ ["app_pipelines", "cpu_tracker"]) = true)
    (hw2 : w.writable (root ++ ["private", "cpu_tracker"]) = true) :
    (run w fs0 root).trace =
      [(publicFile root, ⟨noisedValue (seriesOf f) w.noise, timestampStr (w.clock 0)⟩),
       (privateFile root, ⟨(seriesOf f).sum / ((seriesOf f).length : ℚ),
          timestampStr (w.clock 1)⟩)] ∧
    publicFile root ≠ privateFile root :=
  ⟨(run_ok w fs0 root f hs hm1 hp1 hm2 hp2 hw1 hw2).2.1,
   publicFile_ne_privateFile root⟩

theorem claim_C3_witness :
    (run wAllOk fsNone ["ds"]).trace =
      [(publicFile ["ds"],
        ⟨noisedValue (seriesOf (fun _ => 25)) wAllOk.noise, timestampStr (wAllOk.clock 0)⟩),
       (privateFile ["ds"],
        ⟨(seriesOf (fun _ => (25 : ℚ))).sum / ((seriesOf (fun _ => (25 : ℚ))).length : ℚ),
          timestampStr (wAllOk.clock 1)⟩)] ∧
    publicFile ["ds"] ≠ privateFile ["ds"] :=
  claim_C3_two_destinations wAllOk fsNone ["ds"] (fun _ => 25) (fun _ => rfl)
    rfl rfl rfl rfl rfl rfl

/-- C8: every error raised in a run propagates to the top level and aborts the
rest of the run with no retry: a sampler exception aborts before any write, a
failed public write aborts before the private write is attempted, and a failed
private write leaves exactly the public record written. -/
theorem claim_C8_error_propagation (w : World) (fs0 : Fs) (root : List String)
    (hm1 : w.mkdirOk (root ++ ["app_pipelines", "cpu_tracker"]) = true)
    (hp1 : w.permOk (root ++ ["app_pipelines", "cpu_tracker"]) = true)
    (hm2 : w.mkdirOk (root ++ ["private", "cpu_tracker"]) = true)
    (hp2 : w.permOk (root ++ ["private", "cpu_tracker"]) = true) :
    (∀ e, w.sampler 0 = Except.error e → run w fs0 root = ⟨[], fs0, some e⟩) ∧
    (∀ f : ℕ → ℚ, (∀ i, w.sampler i = Except.ok (f i)) →
      w.writable (root ++ ["app_pipelines", "cpu_tracker"]) = false →
      run w fs0 root = ⟨[], fs0, some RunError.ioFailure⟩) ∧
    (∀ f : ℕ → ℚ, (∀ i, w.sampler i = Except.ok (f i)) →
      w.writable (root ++ ["app_pipelines", "cpu_tracker"]) = true →
      w.writable (root ++ ["private", "cpu_tracker"]) = false →
      (run w fs0 root).trace =
        [(publicFile root,
          ⟨noisedValue (seriesOf f) w.noise, timestampStr (w.clock 0)⟩)] ∧
      (run w fs0 root).err = some RunError.ioFailure) := by
  refine ⟨?_, ?_, ?_⟩
  · intro e he
    simp only [run, runGenExact, create_restricted_public_folder,
      create_private_folder, hm1, hp1, hm2, hp2, if_true,
      get_cpu_usage_samples_err w.sampler e he]
  · intro f hs hw
    have hsamp := get_cpu_usage_samples_total w.sampler f hs
    have hne := seriesOf_ne_nil f
    simp only [run, runGenExact, create_restricted_public_folder,
      create_private_folder, hm1, hp1, hm2, hp2, if_true, hsamp,
      statistics_mean_ok (seriesOf f) hne, dp_mean_ok (seriesOf f) w.noise hne,
      save, List.append_assoc, List.cons_append, List.nil_append,
      dropLast_append_three, hw, Bool.false_eq_true, if_false]
  · intro f hs hw1 hw2
    have hsamp := get_cpu_usage_samples_total w.sampler f hs
    have hne := seriesOf_ne_nil f
    constructor <;>
      simp only [run, runGenExact, create_restricted_public_folder,
        create_private_folder, hm1, hp1, hm2, hp2, if_true, hsamp,
        statistics_mean_ok (seriesOf f) hne, dp_mean_ok (seriesOf f) w.noise hne,
        save, List.append_assoc, List.cons_append, List.nil_append,
        dropLast_append_three, hw1, hw2, Bool.false_eq_true, if_false, if_true,
        noisedValue, publicFile]

theorem claim_C8_witness :
    run wPubFail fsNone ["ds"] = ⟨[], fsNone, some RunError.ioFailure⟩ :=
  (claim_C8_error_propagation wPubFail fsNone ["ds"] rfl rfl rfl rfl).2.1
    (fun _ => 25) (fun _ => rfl) rfl

/-- C10: the exact mean is persisted at full precision: in a successful run the
private record's value is exactly the unrounded mean sum/count, and in the
concrete run whose 50 samples all equal 1/3 the private value 1/3 cannot be
written with only two decimal places (only the public value is rounded). -/
theorem claim_C10_private_full_precision :
    (∀ (w : World) (fs0 : Fs) (root : List String) (f : ℕ → ℚ),
      (∀ i, w.sampler i = Except.ok (f i)) →
      w.mkdirOk (root ++ ["app_pipelines", "cpu_tracker"]) = true →
      w.permOk (root ++ ["app_pipelines", "cpu_tracker"]) = true →
      w.mkdirOk (root ++ ["private", "cpu_tracker"]) = true →
      w.permOk (root ++ ["private", "cpu_tracker"]) = true →
      w.writable (root ++ ["app_pipelines", "cpu_tracker"]) = true →
      w.writable (root ++ ["private", "cpu_tracker"]) = true →
      (run w fs0 root).fs (privateFile root) =
        some ⟨(seriesOf f).sum / ((seriesOf f).length : ℚ), timestampStr (w.clock 1)⟩) ∧
    ((run wThird fsNone ["ds"]).fs (privateFile ["ds"]) =
        some ⟨1/3, timestampStr dt0⟩ ∧
      ¬ twoDecimalRepresentable (1/3)) := by
  refine ⟨?_, ?_, ?_⟩
  · intro w fs0 root f hs h1 h2 h3 h4 h5 h6
    exact (run_ok w fs0 root f hs h1 h2 h3 h4 h5 h6).2.2.2.1
  · have h := (run_ok wThird fsNone ["ds"] (fun _ => 1/3) (fun _ => rfl)
      rfl rfl rfl rfl rfl rfl).2.2.2.1
    have hmean : (seriesOf fun _ => (1/3 : ℚ)).sum /
        ((seriesOf fun _ => (1/3 : ℚ)).length : ℚ) = 1/3 := by
      rw [seriesOf, List.map_const', List.length_range, List.length_replicate,
        List.sum_replicate]
      norm_num [nsmul_eq_mul]
    rw [hmean] at h
    exact h
  · rintro ⟨k, hk⟩
    have h2 : (100 : ℚ) = 3 * (k : ℚ) := by linarith
    have h3 : (100 : ℤ) = 3 * k := by exact_mod_cast h2
    omega

theorem claim_C10_witness :
    (run wThird fsNone ["ds"]).fs (privateFile ["ds"]) =
      some ⟨(seriesOf fun _ => (1/3 : ℚ)).sum / ((seriesOf fun _ => (1/3 : ℚ)).length : ℚ),
        timestampStr (wThird.clock 1)⟩ :=
  claim_C10_private_full_precision.1 wThird fsNone ["ds"] (fun _ => 1/3)
    (fun _ => rfl) rfl rfl rfl rfl rfl rfl

theorem priv_beq_pub_false (root : List String) :
    ((root ++ ["private", "cpu_tracker", "cpu_tracker.json"]) ==
      (root ++ ["app_pipelines", "cpu_tracker", "cpu_tracker.json"])) = false := by
  simp

/-- C7: the noised record's value and the whole public output are functions of
the sample series, the privacy parameters and the noise draw only, never of
the exact record: the run is the generalized run with statistics.mean plugged
in as the exact-mean computation, and replacing that computation by any other
function of the series leaves the public write, the public file content and
the final error status unchanged. -/
theorem claim_C7_noised_independent_of_exact :
    (∀ (w : World) (fs0 : Fs) (root : List String),
      run w fs0 root = runGenExact statistics_mean w fs0 root) ∧
    (∀ (f g : List ℚ → ℚ) (w : World) (fs0 : Fs) (root : List String),
      ((runGenExact (fun xs => Except.ok (f xs)) w fs0 root).trace.filter
          (fun ev => ev.1 == publicFile root) =
        (runGenExact (fun xs => Except.ok (g xs)) w fs0 root).trace.filter
          (fun ev => ev.1 == publicFile root)) ∧
      (runGenExact (fun xs => Except.ok (f xs)) w fs0 root).fs (publicFile root) =
        (runGenExact (fun xs => Except.ok (g xs)) w fs0 root).fs (publicFile root) ∧
      (runGenExact (fun xs => Except.ok (f xs)) w fs0 root).err =
        (runGenExact (fun xs => Except.ok (g xs)) w fs0 root).err) := by
  refine ⟨fun w fs0 root => rfl, fun f g w fs0 root => ?_⟩
  cases hb1 : w.mkdirOk (root ++ ["app_pipelines", "cpu_tracker"]) with
  | false =>
      simp [runGenExact, create_restricted_public_folder, hb1]
  | true =>
  cases hb2 : w.permOk (root ++ ["app_pipelines", "cpu_tracker"]) with
  | false =>
      simp [runGenExact, create_restricted_public_folder, hb1, hb2]
  | true =>
  cases hb3 : w.mkdirOk (root ++ ["private", "cpu_tracker"]) with
  | false =>
      simp [runGenExact, create_restricted_public_folder, create_private_folder,
        hb1, hb2, hb3]
  | true =>
  cases hb4 : w.permOk (root ++ ["private", "cpu_tracker"]) with
  | false =>
      simp [runGenExact, create_restricted_public_folder, create_private_folder,
        hb1, hb2, hb3, hb4]
  | true =>
  cases hsamp : (get_cpu_usage_samples w.sampler).2 with
  | error e =>
      simp [runGenExact, create_restricted_public_folder, create_private_folder,
        hb1, hb2, hb3, hb4, hsamp]
  | ok samples =>
  cases hdp : dp_mean samples (1/2) (0, 100) w.noise with
  | error e =>
      simp only [one_div] at hdp
      simp [runGenExact, create_restricted_public_folder, create_private_folder,
        hb1, hb2, hb3, hb4, hsamp, hdp]
  | ok dpm =>
  simp only [one_div] at hdp
  cases hw1 : w.writable (root ++ ["app_pipelines", "cpu_tracker"]) with
  | false =>
      simp [runGenExact, create_restricted_public_folder, create_private_folder,
        save, dropLast_append_three, hb1, hb2, hb3, hb4, hsamp, hdp, hw1]
  | true =>
  cases hw2 : w.writable (root ++ ["private", "cpu_tracker"]) with
  | false =>
      simp [runGenExact, create_restricted_public_folder, create_private_folder,
        save, dropLast_append_three, hb1, hb2, hb3, hb4, hsamp, hdp, hw1, hw2,
        publicFile]
  | true =>
      simp [runGenExact, create_restricted_public_folder, create_private_folder,
        save, dropLast_append_three, hb1, hb2, hb3, hb4, hsamp, hdp, hw1, hw2,
        publicFile, List.filter_cons, priv_beq_pub_false]
